import Mathlib

/-!
# SpaceStateESP8266: the example configuration header

`config.example.h` is a list of object-like `#define` directives and nothing
else.  The development embeds the header as data: every macro becomes a Lean
constant of the same name holding its replacement text, and the header itself
is the list of its directives in file order.  The properties below are
properties of that list.
-/

namespace SpaceState

/-! ## Replacement texts -/

/-- The replacement text of an object-like macro of the header: a string
literal, a decimal integer literal, or a bare identifier that a board header
resolves later (`D1`, `D2`). -/
inductive MacroBody where
  | str (s : String)
  | int (n : Nat)
  | ident (id : String)
  deriving DecidableEq, Repr

namespace MacroBody

/-- Whether the replacement text is a string literal. -/
def isStr : MacroBody → Bool
  | str _ => true
  | _ => false

end MacroBody

/-- One `#define NAME body` line. -/
structure Define where
  name : String
  body : MacroBody
  deriving DecidableEq, Repr

/-! ## The macros of `config.example.h`, in file order -/

/-- Line 2: `#define WLANSSID ""`. -/
def WLANSSID : String := ""

/-- Line 3: `#define WLANPWD ""`. -/
def WLANPWD : String := ""

/-- Line 6: `#define MQTT_SERVER ""`. -/
def MQTT_SERVER : String := ""

/-- Line 8: `#define MQTT_PORT 1883`. -/
def MQTT_PORT : Nat := 1883

/-- Line 9: `#define MQTT_USER ""`. -/
def MQTT_USER : String := ""

/-- Line 10: `#define MQTT_PASSWORD ""`. -/
def MQTT_PASSWORD : String := ""

/-- Line 11: `#define MQTT_TOPIC "environment/dht"`. -/
def MQTT_TOPIC : String := "environment/dht"

/-- Line 14: `#define SPACE_API_URL ""`. -/
def SPACE_API_URL : String := ""

/-- Line 15: `#define UPDATE_DELAY 60000`, commented in the header as
"Interval between updates on space state (60000 = 60s)". -/
def UPDATE_DELAY : Nat := 60000

/-- Line 19: `#define STATE_SWITCH_PIN D1`; the value is the identifier, the
pin number behind it belongs to the board support package. -/
def STATE_SWITCH_PIN : String := "D1"

/-- Line 21: `#define DHT_PIN D2`. -/
def DHT_PIN : String := "D2"

/-- The header: its `#define` directives in the order they are written. -/
def defines : List Define :=
  [ ⟨"WLANSSID", .str WLANSSID⟩,
    ⟨"WLANPWD", .str WLANPWD⟩,
    ⟨"MQTT_SERVER", .str MQTT_SERVER⟩,
    ⟨"MQTT_PORT", .int MQTT_PORT⟩,
    ⟨"MQTT_USER", .str MQTT_USER⟩,
    ⟨"MQTT_PASSWORD", .str MQTT_PASSWORD⟩,
    ⟨"MQTT_TOPIC", .str MQTT_TOPIC⟩,
    ⟨"SPACE_API_URL", .str SPACE_API_URL⟩,
    ⟨"UPDATE_DELAY", .int UPDATE_DELAY⟩,
    ⟨"STATE_SWITCH_PIN", .ident STATE_SWITCH_PIN⟩,
    ⟨"DHT_PIN", .ident DHT_PIN⟩ ]

/-- The macro names the header defines, one entry per directive. -/
def definedNames : List String :=
  defines.map Define.name

/-- How many `#define` lines of the header carry the name `n`. -/
def defineCount (n : String) : Nat :=
  (defines.filter fun d => d.name = n).length

/-- What a use of the name `n` expands to after the header has been read: the
body of the last directive for `n`, or nothing when `n` is not a macro. -/
def expansion (n : String) : Option MacroBody :=
  (defines.reverse.find? fun d => d.name = n).map Define.body

/-- Milliseconds in a second, the unit conversion of the header's remark
"60000 = 60s". -/
def msPerSecond : Nat := 1000

/-! ## The names of the data-model table -/

/-- The constants of the specification's data-model table, row by row. -/
def specTableNames : List String :=
  [ "WLANSSID", "WLANPWD",
    "MQTT_SERVER", "MQTT_PORT", "MQTT_USER", "MQTT_PASSWORD",
    "MQTT_TOPIC",
    "SPACE_API_URL",
    "UPDATE_DELAY",
    "STATE_SWITCH_PIN", "DHT_PIN" ]

/-! ## MQTT topic shape -/

/-- The levels of a topic: the pieces between the `/` separators. -/
def topicLevels (t : String) : List (List Char) :=
  t.toList.splitOn '/'

/-! ## Theorems -/

/-- C1: `UPDATE_DELAY` expands to the integer 60000, and 60000 milliseconds
are exactly 60 seconds: 60000 = 60 * 1000, with no remainder. -/
theorem update_delay_is_sixty_seconds :
    expansion "UPDATE_DELAY" = some (.int 60000) ∧
    UPDATE_DELAY = 60000 ∧
    UPDATE_DELAY = 60 * msPerSecond ∧
    UPDATE_DELAY / msPerSecond = 60 ∧
    UPDATE_DELAY % msPerSecond = 0 := by
  refine ⟨by decide, rfl, rfl, rfl, rfl⟩

/-- C2, as stated, fails: `MQTT_TOPIC` is a string-valued macro of the header
and it does not expand to the empty string literal. -/
theorem mqtt_topic_is_not_empty :
    ∃ d ∈ defines, d.name = "MQTT_TOPIC" ∧ d.body.isStr = true ∧
      expansion d.name ≠ some (.str "") :=
  ⟨⟨"MQTT_TOPIC", .str MQTT_TOPIC⟩, by decide, by decide, by decide, by decide⟩

/-- C2, amended: a string-valued macro of the header is one of the seven
named ones, and it expands to the empty string literal unless it is
`MQTT_TOPIC`, which expands to the default `"environment/dht"`. -/
theorem string_macros_empty_except_topic (d : Define) (hd : d ∈ defines)
    (hs : d.body.isStr = true) :
    d.name ∈ ["WLANSSID", "WLANPWD", "MQTT_SERVER", "MQTT_USER", "MQTT_PASSWORD",
      "MQTT_TOPIC", "SPACE_API_URL"] ∧
    expansion d.name = some d.body ∧
    (d.name ≠ "MQTT_TOPIC" → d.body = .str "") ∧
    (d.name = "MQTT_TOPIC" → d.body = .str "environment/dht") := by
  simp only [defines, List.mem_cons, List.mem_singleton, List.not_mem_nil, or_false] at hd
  rcases hd with h | h | h | h | h | h | h | h | h | h | h <;> subst h <;>
    first
      | exact absurd hs (by decide)
      | exact ⟨by decide, by decide, by decide, by decide⟩

/-- The amended C2 at the first directive of the header, `WLANSSID`. -/
theorem string_macros_empty_except_topic_witness :
    (⟨"WLANSSID", .str ""⟩ : Define) ∈ defines ∧
    (MacroBody.str "").isStr = true ∧
    "WLANSSID" ∈ ["WLANSSID", "WLANPWD", "MQTT_SERVER", "MQTT_USER", "MQTT_PASSWORD",
      "MQTT_TOPIC", "SPACE_API_URL"] ∧
    expansion "WLANSSID" = some (.str "") ∧
    ("WLANSSID" ≠ "MQTT_TOPIC" → MacroBody.str "" = .str "") ∧
    ("WLANSSID" = "MQTT_TOPIC" → MacroBody.str "" = .str "environment/dht") :=
  ⟨by decide, rfl,
    string_macros_empty_except_topic ⟨"WLANSSID", .str ""⟩ (by decide) rfl⟩

/-- C3: every macro name that occurs among the header's directives is carried
by exactly one `#define` line. -/
theorem each_name_defined_once (n : String) (hn : n ∈ definedNames) :
    defineCount n = 1 := by
  simp only [definedNames, defines, List.map_cons, List.map_nil, List.mem_cons,
    List.mem_singleton, List.not_mem_nil, or_false] at hn
  rcases hn with h | h | h | h | h | h | h | h | h | h | h <;> subst h <;> decide

/-- C3 at the name `UPDATE_DELAY`. -/
theorem each_name_defined_once_witness :
    "UPDATE_DELAY" ∈ definedNames ∧ defineCount "UPDATE_DELAY" = 1 :=
  ⟨by decide, each_name_defined_once "UPDATE_DELAY" (by decide)⟩

/-- C4: a name is defined by the header exactly when the data-model table
lists it, and the table lists eleven names, all different. -/
theorem defined_names_are_the_table :
    (∀ n : String, n ∈ definedNames ↔ n ∈ specTableNames) ∧
    specTableNames.length = 11 ∧
    specTableNames.Nodup := by
  refine ⟨fun n => ?_, rfl, by decide⟩
  have h : definedNames = specTableNames := by decide
  rw [h]

/-- C6: the two pin macros expand to the identifiers `D1` and `D2`, which are
different identifiers. -/
theorem pin_identifiers_distinct :
    expansion "STATE_SWITCH_PIN" = some (.ident "D1") ∧
    expansion "DHT_PIN" = some (.ident "D2") ∧
    STATE_SWITCH_PIN ≠ DHT_PIN ∧
    expansion "STATE_SWITCH_PIN" ≠ expansion "DHT_PIN" := by
  refine ⟨by decide, by decide, by decide, by decide⟩

/-- C7: `MQTT_PORT` expands to the integer 1883, which lies between 1 and
65535 and is unchanged by reduction modulo 2^16. -/
theorem mqtt_port_in_tcp_range :
    expansion "MQTT_PORT" = some (.int 1883) ∧
    MQTT_PORT = 1883 ∧
    1 ≤ MQTT_PORT ∧
    MQTT_PORT ≤ 65535 ∧
    MQTT_PORT % 2 ^ 16 = MQTT_PORT := by
  refine ⟨by decide, rfl, by decide, by decide, by decide⟩

/-- C8: the default `MQTT_TOPIC` is `"environment/dht"`; it is not empty, has
no `#` and no `+`, neither starts nor ends with `/`, has no two `/` in a row,
and none of its levels is empty. -/
theorem mqtt_topic_well_formed :
    expansion "MQTT_TOPIC" = some (.str "environment/dht") ∧
    MQTT_TOPIC ≠ "" ∧
    '#' ∉ MQTT_TOPIC.toList ∧
    '+' ∉ MQTT_TOPIC.toList ∧
    MQTT_TOPIC.toList.head? ≠ some '/' ∧
    MQTT_TOPIC.toList.getLast? ≠ some '/' ∧
    ¬ ['/', '/'] <:+: MQTT_TOPIC.toList ∧
    (∀ l ∈ topicLevels MQTT_TOPIC, l ≠ []) ∧
    topicLevels MQTT_TOPIC = ["environment".toList, "dht".toList] := by
  refine ⟨by decide, by decide, by decide, by decide, by decide, by decide, by decide,
    by decide, by decide⟩

end SpaceState
